import Mathlib

/-!
Shallow embedding of `src/app.py`: a JWT token fetcher that, per job run,
loads a batch of accounts, fetches one token per account with a bounded
retry loop, aggregates the successful results, and writes/publishes the
result set only when it differs from the previously persisted state.
-/

set_option autoImplicit false

/-- `MAX_RETRIES = 3` from `app.py`. -/
def MAX_RETRIES : Nat := 3

/-- `MAX_THREADS = 50` from `app.py` (pool width; no effect on results). -/
def MAX_THREADS : Nat := 50

/-- An account credential pair, as loaded from the account source file. -/
structure Account where
  uid : String
  password : String
deriving DecidableEq, Repr

/-- A successful token result `{"token": jwt_token}`. -/
structure TokenResult where
  token : String
deriving DecidableEq, Repr

/-- The observable outcome of one HTTP attempt in `fetch_token`:
a response with a status code and a parse result of the body
(`none` = `response.json()` raised; `some tf` = parsed, with `tf` the value
of `token_data.get("token")`: `none` missing, `some s` a string, possibly
empty), or one of the exception classes the code catches. -/
inductive AttemptOutcome where
  | resp (status : Nat) (body : Option (Option String))
  | timeout
  | connectionError
  | otherError
deriving DecidableEq, Repr

/-- Classification of one attempt, following the branch structure of
`fetch_token`: status 200 with a parsed body whose token field is a
non-empty string (Python truthiness of `jwt_token`) yields the token;
every other outcome is a retryable failure. -/
def attemptToken : AttemptOutcome → Option String
  | .resp status body =>
    if status = 200 then
      match body with
      | some (some t) => if t = "" then none else some t
      | some none => none
      | none => none
    else none
  | .timeout => none
  | .connectionError => none
  | .otherError => none

/-- The trace of one `fetch_token` call: its return value, the number of
HTTP attempts issued, and the number of `time.sleep(1)` calls executed. -/
structure FetchTrace where
  result : Option TokenResult
  attempts : Nat
  sleeps : Nat
deriving DecidableEq, Repr

/-- The retry loop of `fetch_token`, beginning at attempt number `attempt`
with `fuel` loop iterations remaining. A successful attempt returns
immediately (no sleep); an unsuccessful attempt sleeps once and continues;
exhausted fuel returns `None`. -/
def fetchFrom (api : Nat → AttemptOutcome) (attempt : Nat) : Nat → FetchTrace
  | 0 => ⟨none, 0, 0⟩
  | fuel + 1 =>
    match attemptToken (api attempt) with
    | some t => ⟨some ⟨t⟩, 1, 0⟩
    | none =>
      let rest := fetchFrom api (attempt + 1) fuel
      ⟨rest.result, rest.attempts + 1, rest.sleeps + 1⟩

/-- `fetch_token`: attempts numbered `1, ..., MAX_RETRIES`
(`for attempt in range(1, MAX_RETRIES + 1)`), driven by the environment
`api`, which gives the outcome of each numbered attempt. -/
def fetch_token (api : Nat → AttemptOutcome) : FetchTrace :=
  fetchFrom api 1 MAX_RETRIES

/-- Per-account attempt environment: the fixed assignment of per-attempt
outcomes to each account. -/
abbrev ApiModel := Account → Nat → AttemptOutcome

/-- The fan-out/fan-in loop of `fetch_jwt_tokens` (`fetchAll` in the spec):
each account's fetch result is collected, and `None` results are dropped
(`if result: tokens.append(result)`). The account list is taken in the
completion order of the pool. -/
def fetchAll (api : ApiModel) (accounts : List Account) : List TokenResult :=
  accounts.filterMap (fun a => (fetch_token (api a)).result)

/-- Internal outcome of one `fetch_jwt_tokens` run. -/
inductive RunOutcome where
  | changed (publishOk : Bool)
  | unchanged
  | batchFailure
deriving DecidableEq, Repr

/-- The durable state: the persisted token file (`none` = file absent) and
a count of Publisher invocations (`upload_to_github` calls). -/
structure FileState where
  persisted : Option (List TokenResult)
  publishCalls : Nat
deriving DecidableEq, Repr

/-- Environment of one run: the account source read (`.error` = the file
was unreadable or malformed), the per-account attempt outcomes, and
whether the Publisher call succeeds. -/
structure Env where
  accountSource : Except Unit (List Account)
  api : ApiModel
  publishOk : Bool

/-- `fetch_jwt_tokens`: read the account source (failure aborts the run
via the outer `except`, leaving state untouched), fetch all tokens,
then the change gate: if the persisted file exists and its contents equal
the new list, return with no write and no publish; otherwise write the new
list and invoke the Publisher. -/
def fetch_jwt_tokens (env : Env) (st : FileState) : FileState × RunOutcome :=
  match env.accountSource with
  | .error _ => (st, .batchFailure)
  | .ok accounts =>
    let tokens := fetchAll env.api accounts
    match st.persisted with
    | some existing =>
      if existing = tokens then
        (st, .unchanged)
      else
        (⟨some tokens, st.publishCalls + 1⟩, .changed env.publishOk)
    | none => (⟨some tokens, st.publishCalls + 1⟩, .changed env.publishOk)

/-- The `/run-job` endpoint: runs `fetch_jwt_tokens` (which catches every
internal failure) and returns a fixed acknowledgement message. -/
def run_job (env : Env) (st : FileState) : FileState × String :=
  ((fetch_jwt_tokens env st).1, "✅ JWT tokens updated!")

/-- Account used in concrete scenarios. -/
def acct1 : Account := ⟨"a1", "p1"⟩

/-- Second account used in concrete scenarios. -/
def acct2 : Account := ⟨"a2", "p2"⟩

/-- Attempt environment where every account succeeds immediately with token
`T1`. -/
def apiOk : ApiModel := fun _ _ => .resp 200 (some (some "T1"))

/-- Attempt environment where `acct1` succeeds with `T1` and every other
account always gets a 500 status. -/
def apiMix : ApiModel := fun a _ => if a = acct1 then .resp 200 (some (some "T1")) else .resp 500 none

/-- Attempt environment (single account) that fails attempt 1 with a 500 and
succeeds on attempt 2. -/
def apiSecond : Nat → AttemptOutcome := fun k => if k = 2 then .resp 200 (some (some "T2")) else .resp 500 (some none)

/-- Attempt environment (single account) that times out on every attempt. -/
def apiDead : Nat → AttemptOutcome := fun _ => .timeout

/-- Environment: one-account source, always-succeeding API, working
Publisher. -/
def env0 : Env := ⟨.ok [acct1], apiOk, true⟩

/-- Environment whose account source read fails. -/
def envErr : Env := ⟨.error (), apiOk, true⟩

/-- Initial state: no persisted file, no Publisher calls yet. -/
def st0 : FileState := ⟨none, 0⟩

/-- A token is only extracted from an attempt when it is a non-empty
string. -/
theorem attemptToken_ne_empty (o : AttemptOutcome) (t : String)
    (h : attemptToken o = some t) : t ≠ "" := by
  cases o with
  | resp status body =>
    by_cases hs : status = 200
    · rcases body with _ | tf
      · simp [attemptToken, hs] at h
      · rcases tf with _ | s
        · simp [attemptToken, hs] at h
        · by_cases he : s = ""
          · simp [attemptToken, hs, he] at h
          · simp [attemptToken, hs, he] at h
            subst h
            exact he
    · simp [attemptToken, hs] at h
  | timeout => simp [attemptToken] at h
  | connectionError => simp [attemptToken] at h
  | otherError => simp [attemptToken] at h

/-- When every attempt in the window fails, the loop consumes all its fuel,
returns `none`, and sleeps once per attempt. -/
theorem fetchFrom_all_fail (api : Nat → AttemptOutcome) (fuel : Nat) :
    ∀ start, (∀ i, i < fuel → attemptToken (api (start + i)) = none) →
      fetchFrom api start fuel = ⟨none, fuel, fuel⟩ := by
  induction fuel with
  | zero => intro start _; rfl
  | succ n ih =>
    intro start h
    have h0 : attemptToken (api start) = none := by simpa using h 0 (Nat.succ_pos n)
    have hrest : fetchFrom api (start + 1) n = ⟨none, n, n⟩ := by
      apply ih
      intro i hi
      have hh := h (i + 1) (Nat.succ_lt_succ hi)
      have e : start + (i + 1) = start + 1 + i := by omega
      rwa [e] at hh
    simp [fetchFrom, h0, hrest]

/-- When the first `j` attempts of the window fail and attempt `start + j`
succeeds with token `t`, the loop returns the token after `j + 1` attempts
and `j` sleeps. -/
theorem fetchFrom_succeed_at (api : Nat → AttemptOutcome) (j : Nat) :
    ∀ (start fuel : Nat) (t : String), j < fuel →
      (∀ i, i < j → attemptToken (api (start + i)) = none) →
      attemptToken (api (start + j)) = some t →
      fetchFrom api start fuel = ⟨some ⟨t⟩, j + 1, j⟩ := by
  induction j with
  | zero =>
    intro start fuel t hlt _ hsucc
    cases fuel with
    | zero => omega
    | succ f =>
      have h0 : attemptToken (api start) = some t := by simpa using hsucc
      simp [fetchFrom, h0]
  | succ k ih =>
    intro start fuel t hlt hfail hsucc
    cases fuel with
    | zero => omega
    | succ f =>
      have h0 : attemptToken (api start) = none := by
        simpa using hfail 0 (Nat.succ_pos k)
      have hrest : fetchFrom api (start + 1) f = ⟨some ⟨t⟩, k + 1, k⟩ := by
        apply ih (start + 1) f t (by omega)
        · intro i hi
          have hh := hfail (i + 1) (Nat.succ_lt_succ hi)
          have e : start + (i + 1) = start + 1 + i := by omega
          rwa [e] at hh
        · have e : start + (k + 1) = start + 1 + k := by omega
          rwa [e] at hsucc
      simp [fetchFrom, h0, hrest]

/-- A loop that returned `none` consumed all its fuel: one attempt and one
sleep per fuel unit. -/
theorem fetchFrom_none_eq (api : Nat → AttemptOutcome) (fuel : Nat) :
    ∀ start, (fetchFrom api start fuel).result = none →
      fetchFrom api start fuel = ⟨none, fuel, fuel⟩ := by
  induction fuel with
  | zero => intro start _; rfl
  | succ n ih =>
    intro start hnone
    rcases h : attemptToken (api start) with _ | t
    · have hr : (fetchFrom api (start + 1) n).result = none := by
        simpa [fetchFrom, h] using hnone
      simp [fetchFrom, h, ih (start + 1) hr]
    · simp [fetchFrom, h] at hnone

/-- A loop that returned a token returned a non-empty one and did not sleep
after its final (successful) attempt. -/
theorem fetchFrom_some_eq (api : Nat → AttemptOutcome) (fuel : Nat) :
    ∀ start r, (fetchFrom api start fuel).result = some r →
      r.token ≠ "" ∧
      (fetchFrom api start fuel).sleeps + 1 = (fetchFrom api start fuel).attempts := by
  induction fuel with
  | zero => intro start r hr; simp [fetchFrom] at hr
  | succ n ih =>
    intro start r hr
    rcases h : attemptToken (api start) with _ | t
    · have hr' : (fetchFrom api (start + 1) n).result = some r := by
        simpa [fetchFrom, h] using hr
      have := ih (start + 1) r hr'
      refine ⟨this.1, ?_⟩
      simp [fetchFrom, h]
      omega
    · have ht : r = ⟨t⟩ := by
        have := hr
        simp [fetchFrom, h] at this
        simp [this]
      subst ht
      exact ⟨attemptToken_ne_empty _ _ h, by simp [fetchFrom, h]⟩

/-- The result set has one entry per account whose fetch succeeded. -/
theorem fetchAll_length_eq (api : ApiModel) (accounts : List Account) :
    (fetchAll api accounts).length =
      accounts.countP (fun x => ((fetch_token (api x)).result).isSome) := by
  induction accounts with
  | nil => rfl
  | cons a l ih =>
    rcases h : (fetch_token (api a)).result with _ | r
    · simp [fetchAll, List.filterMap_cons, h, List.countP_cons]
      simpa [fetchAll] using ih
    · simp [fetchAll, List.filterMap_cons, h, List.countP_cons]
      simpa [fetchAll] using ih

/-- A run whose account source read succeeded never reports a batch
failure. -/
theorem run_ok_not_batchFailure (env : Env) (st : FileState)
    (accounts : List Account) (h : env.accountSource = .ok accounts) :
    (fetch_jwt_tokens env st).2 ≠ .batchFailure := by
  unfold fetch_jwt_tokens
  rw [h]
  rcases st with ⟨persisted, pc⟩
  rcases persisted with _ | existing
  · simp
  · by_cases he : existing = fetchAll env.api accounts
    · simp [he]
    · simp [he]

/-- After a run whose account source read succeeded, the persisted file
holds exactly the new result set. -/
theorem run_ok_persisted (env : Env) (st : FileState)
    (accounts : List Account) (h : env.accountSource = .ok accounts) :
    (fetch_jwt_tokens env st).1.persisted = some (fetchAll env.api accounts) := by
  unfold fetch_jwt_tokens
  rw [h]
  rcases st with ⟨persisted, pc⟩
  rcases persisted with _ | existing
  · simp
  · by_cases he : existing = fetchAll env.api accounts
    · simp [he]
    · simp [he]

/-- The loop never issues more attempts than it has fuel. -/
theorem fetchFrom_attempts_le (api : Nat → AttemptOutcome) (fuel : Nat) :
    ∀ start, (fetchFrom api start fuel).attempts ≤ fuel := by
  induction fuel with
  | zero => intro start; simp [fetchFrom]
  | succ n ih =>
    intro start
    rcases h : attemptToken (api start) with _ | t
    · have := ih (start + 1)
      simp [fetchFrom, h]
      omega
    · simp [fetchFrom, h]

/-- C3: an account whose API fails the first N−1 attempts and succeeds on
attempt N ≤ MAX_RETRIES with a non-empty token t yields the success result
immediately after attempt N: exactly N attempts, no further retries (and
N − 1 inter-attempt sleeps). -/
theorem c3_success_after_n_attempts (api : Nat → AttemptOutcome) (N : Nat)
    (t : String) (h1 : 1 ≤ N) (h2 : N ≤ MAX_RETRIES)
    (hfail : ∀ k, 1 ≤ k → k < N → attemptToken (api k) = none)
    (hsucc : attemptToken (api N) = some t) :
    fetch_token api = ⟨some ⟨t⟩, N, N - 1⟩ := by
  have hj : fetchFrom api 1 MAX_RETRIES = ⟨some ⟨t⟩, (N - 1) + 1, N - 1⟩ := by
    apply fetchFrom_succeed_at api (N - 1) 1 MAX_RETRIES t (by omega)
    · intro i hi
      exact hfail (1 + i) (by omega) (by omega)
    · have e : 1 + (N - 1) = N := by omega
      rw [e]
      exact hsucc
  have e2 : (N - 1) + 1 = N := by omega
  rw [fetch_token, hj, e2]

/-- C3 witness: failing attempt 1 then succeeding on attempt 2 gives the
token after exactly 2 attempts. -/
theorem c3_success_after_n_attempts_witness :
    fetch_token apiSecond = ⟨some ⟨"T2"⟩, 2, 2 - 1⟩ :=
  c3_success_after_n_attempts apiSecond 2 "T2" (by decide) (by decide)
    (fun k hk1 hk2 => by
      have hk : k = 1 := by omega
      subst hk
      rfl)
    (by decide)

/-- C4: an account whose API fails on every attempt — timeouts, connection
errors, other exceptions, non-200 statuses, and 200 responses with a
missing or empty token field are all classified as retryable failures —
performs exactly MAX_RETRIES = 3 attempts, returns DefinitiveFailure
(`none`) rather than raising, contributes nothing to the batch result, and
does not turn the run into a batch failure. -/
theorem c4_definitive_failure (api : Nat → AttemptOutcome)
    (hfail : ∀ k, 1 ≤ k → k ≤ MAX_RETRIES → attemptToken (api k) = none) :
    fetch_token api = ⟨none, MAX_RETRIES, MAX_RETRIES⟩ ∧
    MAX_RETRIES = 3 ∧
    attemptToken .timeout = none ∧
    attemptToken .connectionError = none ∧
    attemptToken .otherError = none ∧
    (∀ s b, s ≠ 200 → attemptToken (.resp s b) = none) ∧
    attemptToken (.resp 200 (some none)) = none ∧
    attemptToken (.resp 200 (some (some ""))) = none ∧
    attemptToken (.resp 200 none) = none ∧
    (∀ (g : ApiModel) (a : Account) (accounts : List Account), g a = api →
      fetchAll g (a :: accounts) = fetchAll g accounts) ∧
    (∀ (g : ApiModel) (accounts : List Account) (p : Bool) (st : FileState),
      (fetch_jwt_tokens ⟨.ok accounts, g, p⟩ st).2 ≠ .batchFailure) := by
  have hmain : fetch_token api = ⟨none, MAX_RETRIES, MAX_RETRIES⟩ := by
    rw [fetch_token]
    apply fetchFrom_all_fail
    intro i hi
    exact hfail (1 + i) (by omega) (by omega)
  refine ⟨hmain, rfl, rfl, rfl, rfl, ?_, rfl, rfl, rfl, ?_, ?_⟩
  · intro s b hs
    simp [attemptToken, hs]
  · intro g a accounts hg
    have hres : (fetch_token (g a)).result = none := by
      rw [hg, hmain]
    simp [fetchAll, List.filterMap_cons, hres]
  · intro g accounts p st
    exact run_ok_not_batchFailure ⟨.ok accounts, g, p⟩ st accounts rfl

/-- C4 witness: an always-timing-out account exhausts all three attempts
and returns DefinitiveFailure. -/
theorem c4_definitive_failure_witness :
    fetch_token apiDead = ⟨none, MAX_RETRIES, MAX_RETRIES⟩ :=
  (c4_definitive_failure apiDead (fun _ _ _ => rfl)).1

/-- C8: `time.sleep(1)` runs after every unsuccessful attempt, including the
final one: a definitive failure incurs exactly MAX_RETRIES sleeps, while a
successful fetch returns without a trailing sleep, so its sleep count is
one less than its attempt count. -/
theorem c8_sleep_after_every_failure (api : Nat → AttemptOutcome) :
    ((fetch_token api).result = none →
      (fetch_token api).sleeps = MAX_RETRIES ∧
      (fetch_token api).attempts = MAX_RETRIES) ∧
    (∀ r, (fetch_token api).result = some r →
      (fetch_token api).sleeps + 1 = (fetch_token api).attempts) := by
  constructor
  · intro hnone
    have := fetchFrom_none_eq api MAX_RETRIES 1 hnone
    rw [fetch_token, this]
    exact ⟨rfl, rfl⟩
  · intro r hr
    exact (fetchFrom_some_eq api MAX_RETRIES 1 r hr).2

/-- C8 witness: an always-timing-out fetch sleeps exactly MAX_RETRIES
times. -/
theorem c8_sleep_after_every_failure_witness :
    (fetch_token apiDead).sleeps = MAX_RETRIES ∧
    (fetch_token apiDead).attempts = MAX_RETRIES :=
  (c8_sleep_after_every_failure apiDead).1 (by decide)

/-- C2: the coordinator's result set holds exactly the per-account results
that succeeded with a non-empty token within the retry cap — `None`
(DefinitiveFailure) entries are filtered out, every successful result is
included, its size is at most the batch size, and individual account
failures never turn the run into a batch failure. -/
theorem c2_result_set_exact (api : ApiModel) (accounts : List Account)
    (r : TokenResult) (hr : r ∈ fetchAll api accounts) :
    (fetchAll api accounts).length ≤ accounts.length ∧
    (r.token ≠ "" ∧ ∃ a, a ∈ accounts ∧ (fetch_token (api a)).result = some r ∧
      (fetch_token (api a)).attempts ≤ MAX_RETRIES) ∧
    (∀ a s, a ∈ accounts → (fetch_token (api a)).result = some s →
      s ∈ fetchAll api accounts) ∧
    (∀ (env : Env) (st : FileState), env.accountSource = .ok accounts →
      (fetch_jwt_tokens env st).2 ≠ .batchFailure) := by
  refine ⟨List.length_filterMap_le _ _, ?_, ?_, ?_⟩
  · rcases List.mem_filterMap.mp hr with ⟨a, ha, hres⟩
    refine ⟨?_, a, ha, hres, fetchFrom_attempts_le (api a) MAX_RETRIES 1⟩
    exact (fetchFrom_some_eq (api a) MAX_RETRIES 1 r hres).1
  · intro a s ha hs
    exact List.mem_filterMap.mpr ⟨a, ha, hs⟩
  · intro env st h
    exact run_ok_not_batchFailure env st accounts h

/-- C2 witness: with one immediately succeeding account, the result set is
no larger than the batch. -/
theorem c2_result_set_exact_witness :
    (fetchAll apiOk [acct1]).length ≤ [acct1].length :=
  (c2_result_set_exact apiOk [acct1] ⟨"T1"⟩ (by decide)).1

/-- C9: the result set is not deduplicated — two distinct accounts that
succeed with the same token both contribute an entry — and its length is
in general the number of accounts whose fetch succeeded. -/
theorem c9_no_dedup (api : ApiModel) (a b : Account) (r : TokenResult)
    (ha : (fetch_token (api a)).result = some r)
    (hb : (fetch_token (api b)).result = some r) :
    fetchAll api [a, b] = [r, r] ∧
    ∀ accounts : List Account,
      (fetchAll api accounts).length =
        accounts.countP (fun x => ((fetch_token (api x)).result).isSome) := by
  constructor
  · simp [fetchAll, List.filterMap_cons, ha, hb]
  · intro accounts
    exact fetchAll_length_eq api accounts

/-- C9 witness: two distinct accounts both succeeding with token `T1`
yield a two-element result set with the duplicate retained. -/
theorem c9_no_dedup_witness : fetchAll apiOk [acct1, acct2] = [⟨"T1"⟩, ⟨"T1"⟩] :=
  (c9_no_dedup apiOk acct1 acct2 ⟨"T1"⟩ (by decide) (by decide)).1

/-- C10: for a fixed assignment of per-attempt outcomes to each account,
the result sets produced over any two completion orders of the same batch
are permutations of one another — equal as multisets of token objects. -/
theorem c10_completion_order_irrelevant (api : ApiModel)
    (l1 l2 : List Account) (h : l1.Perm l2) :
    (fetchAll api l1).Perm (fetchAll api l2) ∧
    (↑(fetchAll api l1) : Multiset TokenResult) = ↑(fetchAll api l2) := by
  have hp : (fetchAll api l1).Perm (fetchAll api l2) := h.filterMap _
  exact ⟨hp, Quot.sound hp⟩

/-- C10 witness: the two completion orders of a two-account batch give
permuted result sets. -/
theorem c10_completion_order_irrelevant_witness :
    (fetchAll apiMix [acct1, acct2]).Perm (fetchAll apiMix [acct2, acct1]) :=
  (c10_completion_order_irrelevant apiMix [acct1, acct2] [acct2, acct1]
    (List.Perm.swap acct2 acct1 [])).1

/-- C1: the new result set is written to the persisted file and handed to
the Publisher if and only if it differs (structural, order-sensitive list
comparison) from the previously persisted state; on equality the run
returns Unchanged with no write and no publish; an absent persisted file
is a distinct state, so the first run always writes — it is not an
error. -/
theorem c1_change_gate_iff (env : Env) (st : FileState)
    (accounts : List Account) (h : env.accountSource = .ok accounts) :
    (((fetch_jwt_tokens env st).1.persisted = some (fetchAll env.api accounts) ∧
      (fetch_jwt_tokens env st).1.publishCalls = st.publishCalls + 1 ∧
      (fetch_jwt_tokens env st).2 = .changed env.publishOk) ↔
      st.persisted ≠ some (fetchAll env.api accounts)) ∧
    (st.persisted = some (fetchAll env.api accounts) →
      fetch_jwt_tokens env st = (st, .unchanged)) ∧
    (st.persisted ≠ some (fetchAll env.api accounts) →
      fetch_jwt_tokens env st =
        (⟨some (fetchAll env.api accounts), st.publishCalls + 1⟩,
          .changed env.publishOk)) ∧
    (st.persisted = none → (fetch_jwt_tokens env st).2 ≠ .batchFailure) := by
  unfold fetch_jwt_tokens
  rw [h]
  rcases st with ⟨persisted, pc⟩
  rcases persisted with _ | existing
  · simp
  · by_cases he : existing = fetchAll env.api accounts
    · subst he
      simp
    · simp [he]

/-- C1 witness: a first run (no persisted file) writes the result set and
invokes the Publisher. -/
theorem c1_change_gate_iff_witness :
    fetch_jwt_tokens env0 st0 =
      (⟨some (fetchAll env0.api [acct1]), st0.publishCalls + 1⟩,
        .changed env0.publishOk) :=
  (c1_change_gate_iff env0 st0 [acct1] rfl).2.2.1 (by decide)

/-- C5: running the change-gated commit twice with the same result set
writes and publishes at most on the first call: after the first run the
persisted sequence equals the new one, so the second run returns Unchanged
and leaves the state (file and publish count) untouched; the model's
persisted file stores the token list itself, i.e. the JSON
write-then-read round-trip preserves structural equality. When the initial
state differs from the new set, the first call does write and publish. -/
theorem c5_commit_idempotent (env : Env) (st : FileState)
    (accounts : List Account) (h : env.accountSource = .ok accounts) :
    fetch_jwt_tokens env (fetch_jwt_tokens env st).1 =
      ((fetch_jwt_tokens env st).1, .unchanged) ∧
    (st.persisted ≠ some (fetchAll env.api accounts) →
      fetch_jwt_tokens env st =
        (⟨some (fetchAll env.api accounts), st.publishCalls + 1⟩,
          .changed env.publishOk)) := by
  have hp : (fetch_jwt_tokens env st).1.persisted =
      some (fetchAll env.api accounts) := run_ok_persisted env st accounts h
  constructor
  · rcases hst : fetch_jwt_tokens env st with ⟨st1, o1⟩
    rw [hst] at hp
    unfold fetch_jwt_tokens
    rw [h]
    rcases st1 with ⟨p1, pc1⟩
    simp at hp
    simp [hp]
  · intro hne
    unfold fetch_jwt_tokens
    rw [h]
    rcases st with ⟨persisted, pc⟩
    rcases persisted with _ | existing
    · simp
    · have he : existing ≠ fetchAll env.api accounts := by
        intro e
        exact hne (by simpa using congrArg some e)
      simp [he]

/-- C5 witness: after a first-run commit, an immediate second run with the
same result set reports Unchanged and changes nothing. -/
theorem c5_commit_idempotent_witness :
    fetch_jwt_tokens env0 (fetch_jwt_tokens env0 st0).1 =
      ((fetch_jwt_tokens env0 st0).1, .unchanged) :=
  (c5_commit_idempotent env0 st0 [acct1] rfl).1

/-- C6: when the account source is unreadable or malformed, the run aborts
with the error caught (a batch-failure outcome, not a raised exception):
the persisted file and the Publisher call count are exactly as before. -/
theorem c6_source_failure_aborts (env : Env) (st : FileState) (e : Unit)
    (h : env.accountSource = .error e) :
    fetch_jwt_tokens env st = (st, .batchFailure) := by
  unfold fetch_jwt_tokens
  rw [h]

/-- C6 witness: a failing account source leaves the initial state
untouched. -/
theorem c6_source_failure_aborts_witness :
    fetch_jwt_tokens envErr st0 = (st0, .batchFailure) :=
  c6_source_failure_aborts envErr st0 () rfl

/-- C7: the on-demand trigger returns the same generic success
acknowledgement for every environment and state — hence for every internal
outcome (success, Unchanged, batch failure, Publisher failure) — and no
internal failure propagates as an error through the endpoint; the endpoint
still performs the state transition of the underlying job. -/
theorem c7_uniform_ack (env env2 : Env) (st st2 : FileState) :
    (run_job env st).2 = "✅ JWT tokens updated!" ∧
    (run_job env st).2 = (run_job env2 st2).2 ∧
    (run_job env st).1 = (fetch_jwt_tokens env st).1 :=
  ⟨rfl, rfl, rfl⟩
